import Mathlib

/-!
# Verification of `edx_prefectutils/edx_api_client.py`

A shallow embedding of the authenticated, retrying, paginated HTTP client.
The HTTP transport is modelled as a *script*: a finite list of attempt
outcomes (one per `GET` issued), each stamped with the wall-clock time at
which the attempt completes.  All functions are translated directly from
the Python source; time is in seconds as `Nat`.
-/

namespace EdxApi

/-- A Python value, as far as the client inspects response bodies:
`None`, booleans, integers, strings, lists and string-keyed dicts. -/
inductive PyVal where
  | vnone
  | vbool (b : Bool)
  | vint (n : Int)
  | vstr (s : String)
  | vlist (xs : List PyVal)
  | vdict (kvs : List (String × PyVal))

/-- Python `is None`. -/
def PyVal.isNone : PyVal → Bool
  | .vnone => true
  | _ => false

/-- Python truthiness: `None`, `False`, `0`, `""`, `[]`, `{}` are falsy. -/
def PyVal.falsy : PyVal → Bool
  | .vnone => true
  | .vbool b => !b
  | .vint n => n == 0
  | .vstr s => s == ""
  | .vlist xs => xs.isEmpty
  | .vdict kvs => kvs.isEmpty

/-- First-match lookup in an association list, `None` when absent. -/
def lookupKV : List (String × PyVal) → String → PyVal
  | [], _ => .vnone
  | (k, v) :: rest, key => if k = key then v else lookupKV rest key

/-- Python `response_obj.get(key)`: on a dict, the value stored under
`key` (`None` when the key is absent); on any non-dict receiver (e.g. a
top-level JSON list) the attribute access raises `AttributeError`,
modelled as `none`. -/
def PyVal.dictGet : PyVal → String → Option PyVal
  | .vdict kvs, key => some (lookupKV kvs key)
  | _, _ => none

/-- An HTTP response: its status code and its body.  The body is `some v`
when it parses as JSON to the Python value `v`, and `none` when
`response.json()` would raise. -/
structure Response where
  status : Nat
  body : Option PyVal

/-- The outcome of one HTTP attempt: either a transport-level failure
(`requests` raises with no response attached) or a response. -/
inductive AttemptOutcome where
  | transportError
  | response (status : Nat) (body : Option PyVal)

/-- One scripted attempt: the wall-clock time (seconds) at which the
attempt completes, and its outcome. -/
structure Attempt where
  time : Nat
  outcome : AttemptOutcome

/-- `Response.raise_for_status` raises exactly for status codes in
400–599 (4xx client errors and 5xx server errors). -/
def isErrorStatus (s : Nat) : Bool := 400 ≤ s && s < 600

/-- `DEFAULT_RETRY_STATUS_CODES = (408, 429, 503, 504, 502, 520)`. -/
def DEFAULT_RETRY_STATUS_CODES : List Nat := [408, 429, 503, 504, 502, 520]

/-- `DEFAULT_TIMEOUT_SECONDS = 7200`. -/
def DEFAULT_TIMEOUT_SECONDS : Nat := 7200

/-- The `pagination_key` argument: a string naming a top-level field, a
callable from the parsed body to the next-page locator, or `None`. -/
inductive PaginationKey where
  | ofString (s : String)
  | ofCallable (f : PyVal → PyVal)
  | noneKey

/-- `get_next_url_from_response` (inner function of `paginated_get`),
applied to an already-parsed body: dispatch on the runtime type of
`pagination_key`.  `none` is the `AttributeError` raised by `.get` on a
non-dict body; the callable and `None` variants do not raise here. -/
def get_next_url_from_response (pk : PaginationKey) (response_obj : PyVal) :
    Option PyVal :=
  match pk with
  | .ofString s => response_obj.dictGet s
  | .ofCallable f => some (f response_obj)
  | .noneKey => some .vnone

/-- The errors a page fetch can raise.  `attributeError` is the
`AttributeError` from `.get` on a non-dict body — not a
`RequestException`, so `backoff` does not catch it and it propagates at
once.  `noMoreAttempts` is a modelling artifact: the finite script ran
out (the real client would block on the network). -/
inductive FetchErr where
  | transportErr
  | httpErr (resp : Response)
  | jsonErr (resp : Response)
  | attributeError (resp : Response)
  | noMoreAttempts

/-- `should_giveup` (inner function of `paginated_get`): give up when the
error carries no response, or when its status code is not in `retry_on`.
Here the error is represented by the optional response attached to it. -/
def should_giveup (retry_on : List Nat) (error_response : Option Response) : Bool :=
  match error_response with
  | none => true
  | some r => !(retry_on.contains r.status)

/-- `get_resource_with_retry`, together with the `backoff.on_exception`
decorator wrapping it (`backoff.expo`, `max_time=timeout_seconds`,
`giveup=should_giveup`).  One invocation fetches one page, retrying over
the script: a raised `RequestException` is re-raised when `should_giveup`
holds or when time elapsed since `start` (the start of this invocation)
has reached `max_time`; otherwise the next scripted attempt is made.  On
a non-error status the body is parsed as JSON (raising on failure) and
the next-page locator is extracted.  Returns the result paired with the
unconsumed remainder of the script. -/
def get_resource_with_retry (retry_on : List Nat) (pk : PaginationKey)
    (max_time start : Nat) :
    List Attempt → Except FetchErr (Response × PyVal) × List Attempt
  | [] => (.error .noMoreAttempts, [])
  | a :: rest =>
    match a.outcome with
    | .transportError =>
      (.error .transportErr, rest)
    | .response s b =>
      if isErrorStatus s then
        if should_giveup retry_on (some ⟨s, b⟩) then
          (.error (.httpErr ⟨s, b⟩), rest)
        else if max_time ≤ a.time - start then
          (.error (.httpErr ⟨s, b⟩), rest)
        else
          get_resource_with_retry retry_on pk max_time start rest
      else
        match b with
        | Option.none => (.error (.jsonErr ⟨s, b⟩), rest)
        | some v =>
          match get_next_url_from_response pk v with
          | Option.none => (.error (.attributeError ⟨s, b⟩), rest)
          | some next_url => (.ok (⟨s, b⟩, next_url), rest)

/-- The time of the next scripted attempt; the start of a decorated
`get_resource_with_retry` invocation. -/
def headTime : List Attempt → Nat
  | [] => 0
  | a :: _ => a.time

/-- The `while True` loop of `paginated_get`, with fuel bounding the
number of pages (the top-level wrapper supplies `script.length`, which a
finite script can never exceed).  Each iteration fetches one page with a
fresh `backoff` clock starting at that page's first attempt, yields the
response, and stops when the extracted next-page locator `is None`. -/
def paginated_get_aux (retry_on : List Nat) (pk : PaginationKey) (max_time : Nat) :
    Nat → List Attempt → Except FetchErr (List Response) × List Attempt
  | 0, script => (.error .noMoreAttempts, script)
  | fuel + 1, script =>
    match get_resource_with_retry retry_on pk max_time (headTime script) script with
    | (.error e, rest) => (.error e, rest)
    | (.ok (resp, next_url), rest) =>
      if next_url.isNone then (.ok [resp], rest)
      else
        match paginated_get_aux retry_on pk max_time fuel rest with
        | (.error e, rest2) => (.error e, rest2)
        | (.ok resps, rest2) => (.ok (resp :: resps), rest2)

/-- `EdxApiClient.paginated_get`: the full paginated traversal over a
scripted transport, returning the yielded pages and the unconsumed
script. -/
def paginated_get (retry_on : List Nat) (pk : PaginationKey) (max_time : Nat)
    (script : List Attempt) : Except FetchErr (List Response) × List Attempt :=
  paginated_get_aux retry_on pk max_time script.length script

/-- `EdxApiClient.get`: `next(self.paginated_get(url, ..., pagination_key=None))`.
The generator body runs up to its first `yield`, i.e. exactly one
invocation of `get_resource_with_retry` with `pagination_key = None`. -/
def get (retry_on : List Nat) (max_time : Nat) (script : List Attempt) :
    Except FetchErr Response × List Attempt :=
  match get_resource_with_retry retry_on .noneKey max_time (headTime script) script with
  | (.error e, rest) => (.error e, rest)
  | (.ok (resp, _), rest) => (.ok resp, rest)

/-- `SuppliedAuth`: the token and token type attached to outgoing
requests. -/
structure SuppliedAuth where
  token : String
  token_type : String

/-- An outgoing HTTP request, reduced to its header map. -/
structure Request where
  headers : String → Option String

/-- `SuppliedAuth.__call__`: set the `Authorization` header to
`"{token_type} {token}"`. -/
def SuppliedAuth.call (s : SuppliedAuth) (r : Request) : Request :=
  ⟨fun k => if k = "Authorization"
            then some (s.token_type ++ " " ++ s.token)
            else r.headers k⟩

/-- The JSON body returned by the token endpoint:
`access_token`, `expires_in`, and an optional `token_type` override. -/
structure TokenResponse where
  access_token : String
  expires_in : Nat
  token_type : Option String

/-- The token-relevant mutable state of an `EdxApiClient`:
`self._expires_at` and `self._session.auth`. -/
structure TokenState where
  expires_at : Option Nat
  auth : Option SuppliedAuth

/-- `EdxApiClient.ensure_oauth_access_token`: when `_expires_at` is
`None` or `now >= _expires_at`, POST the client-credentials grant
(`endpoint` models the JSON the token endpoint answers with), install a
new `SuppliedAuth` with token type `data.get('token_type', self.token_type)`,
and set `_expires_at = now + expires_in`.  Otherwise leave the state
unchanged.  The boolean records whether the POST was issued. -/
def ensure_oauth_access_token (self_token_type : String) (now : Nat)
    (endpoint : TokenResponse) (st : TokenState) : TokenState × Bool :=
  let refresh : TokenState :=
    { expires_at := some (now + endpoint.expires_in),
      auth := some ⟨endpoint.access_token,
                    endpoint.token_type.getD self_token_type⟩ }
  match st.expires_at with
  | none => (refresh, true)
  | some e => if e ≤ now then (refresh, true) else (st, false)

/-! ## Theorems -/

/-- C1 counterexample: with the default configuration and a full 7200-second
budget remaining, a transport error (no response attached) on the first
attempt makes the executor raise immediately; the scripted successful
attempt one second later is never issued (it remains unconsumed).  The
claim predicts the executor keeps retrying such errors until the budget
is exhausted. -/
theorem C1_counterexample :
    get_resource_with_retry DEFAULT_RETRY_STATUS_CODES (.ofString "next")
      DEFAULT_TIMEOUT_SECONDS 0
      [⟨0, .transportError⟩, ⟨1, .response 200 (some (.vdict []))⟩] =
      (.error .transportErr, [⟨1, .response 200 (some (.vdict []))⟩]) := rfl

/-- C1 amended: an attempt that raises a network-transport error with no
HTTP response attached makes `should_giveup` return `True`, so the
executor gives up immediately after that single attempt and propagates
the error — it never retries such errors, whatever budget remains. -/
theorem C1_amended (ro : List Nat) (pk : PaginationKey) (m start t : Nat)
    (rest : List Attempt) :
    should_giveup ro none = true ∧
    get_resource_with_retry ro pk m start (⟨t, .transportError⟩ :: rest) =
      (.error .transportErr, rest) := ⟨rfl, rfl⟩

/-- C2 counterexample: the Extractor callable returns the falsy value `""`
on the first page's body, yet the traversal issues a second page fetch
and yields two responses (the whole two-attempt script is consumed).
The claim predicts termination after the first page with no further
fetch. -/
theorem C2_counterexample :
    PyVal.falsy (.vstr "") = true ∧
    paginated_get DEFAULT_RETRY_STATUS_CODES
      (.ofCallable (fun b => (b.dictGet "k").getD .vnone)) DEFAULT_TIMEOUT_SECONDS
      [⟨0, .response 200 (some (.vdict [("k", .vstr "")]))⟩,
       ⟨0, .response 200 (some (.vdict [("k", .vnone)]))⟩] =
      (.ok [⟨200, some (.vdict [("k", .vstr "")])⟩,
            ⟨200, some (.vdict [("k", .vnone)])⟩], []) := ⟨rfl, rfl⟩

/-- C2 amended: with a callable `pagination_key`, the page sequence
terminates exactly when the callable returns Python `None` on the current
page's parsed body (the loop tests `next_url is None`); when it returns
`None` on the first page, exactly that page is yielded and no further
fetch is issued.  Other falsy values (such as `""`) do not terminate the
sequence (see the counterexample). -/
theorem C2_amended (f : PyVal → PyVal) (ro : List Nat) (m t s : Nat) (v : PyVal)
    (rest : List Attempt) (hs1 : 200 ≤ s) (hs2 : s < 300)
    (hf : (f v).isNone = true) :
    paginated_get ro (.ofCallable f) m (⟨t, .response s (some v)⟩ :: rest) =
      (.ok [⟨s, some v⟩], rest) := by
  have hes : isErrorStatus s = false := by
    simp only [isErrorStatus, Bool.and_eq_false_iff, decide_eq_false_iff_not, not_le, not_lt]
    omega
  simp [paginated_get, paginated_get_aux, get_resource_with_retry, hes,
        get_next_url_from_response, hf]

/-- C2 amended, witness. -/
theorem C2_amended_witness :
    paginated_get [] (.ofCallable (fun b => (b.dictGet "k").getD .vnone)) 7200
      [⟨0, .response 200 (some (.vdict [("k", .vnone)]))⟩,
       ⟨0, .response 200 (some (.vdict []))⟩] =
      (.ok [⟨200, some (.vdict [("k", .vnone)])⟩],
       [⟨0, .response 200 (some (.vdict []))⟩]) :=
  C2_amended (fun b => (b.dictGet "k").getD .vnone) [] 7200 0 200
    (.vdict [("k", .vnone)]) [⟨0, .response 200 (some (.vdict []))⟩]
    (by decide) (by decide) rfl

/-- C3: the retry deadline is evaluated per page fetch.  First conjunct: a
traversal whose second page starts at absolute time `t ≥ m` (so the whole
traversal takes far longer than the deadline `m`) still succeeds, because
each page's `backoff` clock starts at that page's first attempt and both
pages retry for only `m - 1 < m` seconds of their own window.  Second
conjunct: within a single page fetch, once elapsed time since that page's
first attempt reaches `m`, retrying stops and the fetch fails. -/
theorem C3_deadline_per_page (m t : Nat) (hm : 1 ≤ m) (ht : m ≤ t) :
    (paginated_get DEFAULT_RETRY_STATUS_CODES (.ofString "next") m
      [⟨0, .response 503 (some (.vdict []))⟩,
       ⟨m - 1, .response 200 (some (.vdict [("next", .vstr "u")]))⟩,
       ⟨t, .response 503 (some (.vdict []))⟩,
       ⟨t + (m - 1), .response 200 (some (.vdict [("next", .vnone)]))⟩] =
      (.ok [⟨200, some (.vdict [("next", .vstr "u")])⟩,
            ⟨200, some (.vdict [("next", .vnone)])⟩], [])) ∧
    (get_resource_with_retry DEFAULT_RETRY_STATUS_CODES (.ofString "next") m 0
      [⟨0, .response 503 (some (.vdict []))⟩,
       ⟨m, .response 503 (some (.vdict []))⟩] =
      (.error (.httpErr ⟨503, some (.vdict [])⟩), [])) := by
  have h503 : isErrorStatus 503 = true := rfl
  have h200 : isErrorStatus 200 = false := rfl
  have hc : 503 ∈ DEFAULT_RETRY_STATUS_CODES := by decide
  have hm0 : ¬ m ≤ 0 := by omega
  have hmm : m ≤ m - 0 := by omega
  constructor
  · simp [paginated_get, paginated_get_aux, get_resource_with_retry, headTime,
          h503, h200, hc, should_giveup, get_next_url_from_response,
          PyVal.dictGet, lookupKV, PyVal.isNone, Nat.sub_self, hm0]
  · simp [get_resource_with_retry, h503, hc, should_giveup, Nat.sub_zero,
          hm0, hmm]

/-- C3, witness: `m = 7200`, `t = 7200`. -/
theorem C3_deadline_per_page_witness :
    (paginated_get DEFAULT_RETRY_STATUS_CODES (.ofString "next") 7200
      [⟨0, .response 503 (some (.vdict []))⟩,
       ⟨7199, .response 200 (some (.vdict [("next", .vstr "u")]))⟩,
       ⟨7200, .response 503 (some (.vdict []))⟩,
       ⟨14399, .response 200 (some (.vdict [("next", .vnone)]))⟩] =
      (.ok [⟨200, some (.vdict [("next", .vstr "u")])⟩,
            ⟨200, some (.vdict [("next", .vnone)])⟩], [])) ∧
    (get_resource_with_retry DEFAULT_RETRY_STATUS_CODES (.ofString "next") 7200 0
      [⟨0, .response 503 (some (.vdict []))⟩,
       ⟨7200, .response 503 (some (.vdict []))⟩] =
      (.error (.httpErr ⟨503, some (.vdict [])⟩), [])) :=
  C3_deadline_per_page 7200 7200 (by decide) (by decide)

/-- C4: `ensure_oauth_access_token` refreshes if and only if no expiry is
cached or `now` is at or past the cached expiry.  When it refreshes, it
issues the client-credentials POST and replaces the cached credential
with expiry `now + expires_in`; when the cached expiry is strictly in the
future, it issues no request and leaves the state unchanged. -/
theorem C4_refresh_iff_expired (tt : String) (now : Nat)
    (endpoint : TokenResponse) (st : TokenState) :
    ((st.expires_at = none ∨ ∃ e, st.expires_at = some e ∧ e ≤ now) →
      ensure_oauth_access_token tt now endpoint st =
        ({ expires_at := some (now + endpoint.expires_in),
           auth := some ⟨endpoint.access_token, endpoint.token_type.getD tt⟩ },
         true)) ∧
    (∀ e, st.expires_at = some e → now < e →
      ensure_oauth_access_token tt now endpoint st = (st, false)) := by
  constructor
  · rintro (h | ⟨e, he, hle⟩) <;> simp [ensure_oauth_access_token, *]
  · intro e he hlt
    simp [ensure_oauth_access_token, he, Nat.not_le.mpr hlt]

/-- C4, witness: at `now = 10`, a token expiring at `10` is refreshed to
expire at `3610`, and a token expiring at `11` is left untouched with no
request issued. -/
theorem C4_refresh_iff_expired_witness :
    ensure_oauth_access_token "jwt" 10 ⟨"tok", 3600, none⟩ ⟨some 10, none⟩ =
      ({ expires_at := some 3610, auth := some ⟨"tok", "jwt"⟩ }, true) ∧
    ensure_oauth_access_token "jwt" 10 ⟨"tok", 3600, none⟩ ⟨some 11, none⟩ =
      (⟨some 11, none⟩, false) :=
  ⟨(C4_refresh_iff_expired "jwt" 10 ⟨"tok", 3600, none⟩ ⟨some 10, none⟩).1
      (Or.inr ⟨10, rfl, Nat.le_refl 10⟩),
   (C4_refresh_iff_expired "jwt" 10 ⟨"tok", 3600, none⟩ ⟨some 11, none⟩).2
      11 rfl (by decide)⟩

/-- With a string `pagination_key` and a 200 response whose JSON body is a
top-level list, `response_obj.get` raises `AttributeError` (uncaught by
`backoff`): the fetch errors and no page is yielded. -/
theorem string_key_non_dict_body_raises :
    paginated_get DEFAULT_RETRY_STATUS_CODES (.ofString "next")
      DEFAULT_TIMEOUT_SECONDS [⟨0, .response 200 (some (.vlist []))⟩] =
      (.error (.attributeError ⟨200, some (.vlist [])⟩), []) := rfl

/-- Helper for C5: running the pagination loop with enough fuel over a
script of one successful attempt per body — every non-final body
extracting a present locator, the final body an absent one — yields
exactly those pages and leaves the remainder of the script untouched. -/
theorem paginated_get_aux_pages (ro : List Nat) (pk : PaginationKey) (m : Nat) :
    ∀ (init : List PyVal) (lastB : PyVal) (extra : List Attempt) (fuel : Nat),
      init.length < fuel →
      (∀ b ∈ init, ∃ u, get_next_url_from_response pk b = some u ∧
        u.isNone = false) →
      get_next_url_from_response pk lastB = some .vnone →
      paginated_get_aux ro pk m fuel
        ((init ++ [lastB]).map (fun b => ⟨0, .response 200 (some b)⟩) ++ extra) =
      (.ok ((init ++ [lastB]).map (fun b => Response.mk 200 (some b))), extra) := by
  intro init
  induction init with
  | nil =>
    intro lastB extra fuel hf hinit hlast
    cases fuel with
    | zero => omega
    | succ f =>
      simp [paginated_get_aux, get_resource_with_retry, isErrorStatus, hlast,
            PyVal.isNone]
  | cons b bs ih =>
    intro lastB extra fuel hf hinit hlast
    cases fuel with
    | zero => omega
    | succ f =>
      obtain ⟨u, hu, hune⟩ := hinit b (List.mem_cons_self b bs)
      have hrec := ih lastB extra f (by simpa using Nat.lt_of_succ_lt_succ hf)
        (fun x hx => hinit x (List.mem_cons_of_mem b hx)) hlast
      simp only [List.map_append, List.map_cons, List.map_nil, List.append_assoc,
        List.singleton_append] at hrec ⊢
      simp [paginated_get_aux, get_resource_with_retry, isErrorStatus, hu, hune,
            hrec]

/-- C5: for every pagination strategy and every run in which the first
`N - 1` pages extract a present locator and the `N`-th extracts (without
raising) the absent locator `None` (all pages answering 200),
`paginated_get` yields exactly those `N` responses and leaves the rest
of the script unconsumed — no `(N+1)`-th fetch is issued — and the
sequence ends without error. -/
theorem C5_exactly_N_pages (ro : List Nat) (pk : PaginationKey) (m : Nat)
    (init : List PyVal) (lastB : PyVal) (extra : List Attempt)
    (hinit : ∀ b ∈ init, ∃ u, get_next_url_from_response pk b = some u ∧
      u.isNone = false)
    (hlast : get_next_url_from_response pk lastB = some .vnone) :
    paginated_get ro pk m
      ((init ++ [lastB]).map (fun b => ⟨0, .response 200 (some b)⟩) ++ extra) =
      (.ok ((init ++ [lastB]).map (fun b => Response.mk 200 (some b))), extra) := by
  unfold paginated_get
  exact paginated_get_aux_pages ro pk m init lastB extra _
    (by simp) hinit hlast

/-- C5, witness (scenario C): `{"results":[1],"next":"https://x/page2"}`
then `{"results":[2],"next":null}` yields exactly two responses with no
third fetch. -/
theorem C5_exactly_N_pages_witness :
    paginated_get DEFAULT_RETRY_STATUS_CODES (.ofString "next")
      DEFAULT_TIMEOUT_SECONDS
      [⟨0, .response 200 (some (.vdict [("results", .vlist [.vint 1]),
                                        ("next", .vstr "https://x/page2")]))⟩,
       ⟨0, .response 200 (some (.vdict [("results", .vlist [.vint 2]),
                                        ("next", .vnone)]))⟩] =
      (.ok [⟨200, some (.vdict [("results", .vlist [.vint 1]),
                                ("next", .vstr "https://x/page2")])⟩,
            ⟨200, some (.vdict [("results", .vlist [.vint 2]),
                                ("next", .vnone)])⟩], []) :=
  C5_exactly_N_pages DEFAULT_RETRY_STATUS_CODES (.ofString "next")
    DEFAULT_TIMEOUT_SECONDS
    [.vdict [("results", .vlist [.vint 1]), ("next", .vstr "https://x/page2")]]
    (.vdict [("results", .vlist [.vint 2]), ("next", .vnone)]) []
    (by
      intro b hb
      rw [List.mem_singleton] at hb
      subst hb
      exact ⟨.vstr "https://x/page2", rfl, rfl⟩) rfl

/-- C6 counterexample: status `304` is not 2xx and is not in the default
retryable set, yet `raise_for_status` raises only for 400–599, so the
traversal yields the 304 response as a page instead of surfacing an HTTP
error.  The claim predicts an immediate HTTP error for every non-2xx
status outside the retryable set. -/
theorem C6_counterexample :
    paginated_get DEFAULT_RETRY_STATUS_CODES (.ofString "next")
      DEFAULT_TIMEOUT_SECONDS [⟨0, .response 304 (some (.vdict []))⟩] =
      (.ok [⟨304, some (.vdict [])⟩], []) := rfl

/-- C6 amended: for every response with a status code in 400–599 that is
not in the configured retryable set, the executor makes exactly one
attempt (the rest of the script is untouched) and immediately raises the
HTTP error; in particular a 404 causes one attempt and an immediate
error.  Non-2xx statuses outside 400–599 (1xx/3xx) are not raised by
`raise_for_status` and are treated as success. -/
theorem C6_amended (ro : List Nat) (pk : PaginationKey) (m start t s : Nat)
    (b : Option PyVal) (rest : List Attempt)
    (h4 : 400 ≤ s) (h6 : s < 600) (hro : ro.contains s = false) :
    get_resource_with_retry ro pk m start (⟨t, .response s b⟩ :: rest) =
      (.error (.httpErr ⟨s, b⟩), rest) := by
  have hes : isErrorStatus s = true := by
    simp only [isErrorStatus, Bool.and_eq_true, decide_eq_true_eq]
    omega
  simp [get_resource_with_retry, hes, should_giveup, hro]
  intro hm
  exact absurd hm (by simpa using hro)

/-- C6 amended, witness: a single 404 response with the default retryable
set gives exactly one attempt and an immediate HTTP error. -/
theorem C6_amended_witness :
    get_resource_with_retry DEFAULT_RETRY_STATUS_CODES (.ofString "next")
      DEFAULT_TIMEOUT_SECONDS 0
      [⟨0, .response 404 none⟩, ⟨1, .response 200 (some (.vdict []))⟩] =
      (.error (.httpErr ⟨404, none⟩), [⟨1, .response 200 (some (.vdict []))⟩]) :=
  C6_amended DEFAULT_RETRY_STATUS_CODES (.ofString "next")
    DEFAULT_TIMEOUT_SECONDS 0 0 404 none
    [⟨1, .response 200 (some (.vdict []))⟩] (by decide) (by decide) (by decide)

/-- C7: `get` runs the paginated generator to its first yield only, so
when the first attempt answers 2xx with a JSON body that contains a
present value under the default pagination field `"next"`, it still
issues exactly one GET (the rest of the script is untouched) and returns
exactly that first response. -/
theorem C7_get_single_fetch (ro : List Nat) (m t s : Nat) (v : PyVal)
    (rest : List Attempt) (hs1 : 200 ≤ s) (hs2 : s < 300)
    (hnext : ∃ u, v.dictGet "next" = some u ∧ u.isNone = false) :
    get ro m (⟨t, .response s (some v)⟩ :: rest) = (.ok ⟨s, some v⟩, rest) := by
  have hes : isErrorStatus s = false := by
    simp only [isErrorStatus, Bool.and_eq_false_iff, decide_eq_false_iff_not, not_le, not_lt]
    omega
  simp [get, get_resource_with_retry, get_next_url_from_response, hes]

/-- C7, witness: a first page whose body holds a valid next-page URL under
`"next"`, with a second page scripted; `get` returns the first response
and the second scripted attempt is never issued. -/
theorem C7_get_single_fetch_witness :
    get DEFAULT_RETRY_STATUS_CODES DEFAULT_TIMEOUT_SECONDS
      [⟨0, .response 200 (some (.vdict [("next", .vstr "https://x/page2")]))⟩,
       ⟨1, .response 200 (some (.vdict []))⟩] =
      (.ok ⟨200, some (.vdict [("next", .vstr "https://x/page2")])⟩,
       [⟨1, .response 200 (some (.vdict []))⟩]) :=
  C7_get_single_fetch DEFAULT_RETRY_STATUS_CODES DEFAULT_TIMEOUT_SECONDS 0 200
    (.vdict [("next", .vstr "https://x/page2")])
    [⟨1, .response 200 (some (.vdict []))⟩] (by decide) (by decide)
    ⟨.vstr "https://x/page2", rfl, rfl⟩

/-- C8 counterexample: the error raised when the budget is exhausted on
repeated 503s (first conjunct's left side) is the very same value as the
error raised immediately for a 503 when 503 is not in the configured
retryable set (right side): both are the plain HTTP error carrying the
response.  No distinguished timeout/give-up error distinct from the
fatal-status error exists.  The second conjunct shows the exhaustion
error is just that HTTP error. -/
theorem C8_counterexample :
    (get_resource_with_retry DEFAULT_RETRY_STATUS_CODES (.ofString "next")
        DEFAULT_TIMEOUT_SECONDS 0
        [⟨0, .response 503 (some (.vdict []))⟩,
         ⟨7200, .response 503 (some (.vdict []))⟩]).1 =
      (get_resource_with_retry [] (.ofString "next") DEFAULT_TIMEOUT_SECONDS 0
        [⟨0, .response 503 (some (.vdict []))⟩]).1 ∧
    (get_resource_with_retry DEFAULT_RETRY_STATUS_CODES (.ofString "next")
        DEFAULT_TIMEOUT_SECONDS 0
        [⟨0, .response 503 (some (.vdict []))⟩,
         ⟨7200, .response 503 (some (.vdict []))⟩]).1 =
      .error (.httpErr ⟨503, some (.vdict [])⟩) := ⟨rfl, rfl⟩

/-- C8 amended: when every attempt fails with retryable status 503 and
elapsed time since the page's first attempt reaches the deadline,
`backoff` re-raises the last HTTP error, which does carry the last
observed response — but it is the same undifferentiated HTTP error as
for a non-retryable fatal status, not a distinguished budget-exceeded
error type (see the counterexample). -/
theorem C8_amended (ro : List Nat) (pk : PaginationKey) (m start t1 t2 : Nat)
    (b1 b2 : Option PyVal) (rest : List Attempt)
    (hc : ro.contains 503 = true)
    (h1 : t1 - start < m) (h2 : m ≤ t2 - start) :
    get_resource_with_retry ro pk m start
      (⟨t1, .response 503 b1⟩ :: ⟨t2, .response 503 b2⟩ :: rest) =
      (.error (.httpErr ⟨503, b2⟩), rest) := by
  have h503 : isErrorStatus 503 = true := rfl
  have hc' : 503 ∈ ro := by simpa using hc
  have h1' : ¬ m ≤ t1 - start := by omega
  simp [get_resource_with_retry, h503, should_giveup, hc', h1', h2]

/-- C8 amended, witness: two 503s at times 0 and 7200 with the default
configuration raise the HTTP error carrying the last 503 response. -/
theorem C8_amended_witness :
    get_resource_with_retry DEFAULT_RETRY_STATUS_CODES (.ofString "next")
      7200 0
      [⟨0, .response 503 (some (.vdict [("detail", .vstr "last")]))⟩,
       ⟨7200, .response 503 (some (.vdict [("detail", .vstr "last")]))⟩] =
      (.error (.httpErr ⟨503, some (.vdict [("detail", .vstr "last")])⟩), []) :=
  C8_amended DEFAULT_RETRY_STATUS_CODES (.ofString "next") 7200 0 0 7200
    (some (.vdict [("detail", .vstr "last")]))
    (some (.vdict [("detail", .vstr "last")])) []
    (by decide) (by decide) (by decide)

/-- C9: after the token endpoint answers `access_token = "abc"`,
`expires_in = 3600` with no `token_type` override, a client whose token
type preference is the default `"jwt"` installs a `SuppliedAuth` that
sets the `Authorization` header of every outgoing request to
`"jwt abc"` — the token type, a space, and the access token. -/
theorem C9_authorization_header (now : Nat) (r : Request) :
    ∃ s : SuppliedAuth,
      (ensure_oauth_access_token "jwt" now ⟨"abc", 3600, none⟩
          ⟨none, none⟩).1.auth = some s ∧
      (s.call r).headers "Authorization" = some "jwt abc" :=
  ⟨⟨"abc", "jwt"⟩, rfl, by simp [SuppliedAuth.call]⟩

/-- C10: for any pagination key — including `None`, as used by the
single-page `get` — a 2xx response whose body is not valid JSON makes
both `paginated_get` and `get` raise the JSON-decode error instead of
yielding or returning the page, because `get_next_url_from_response`
calls `response.json()` unconditionally before the page is yielded. -/
theorem C10_json_always_parsed (ro : List Nat) (pk : PaginationKey)
    (m t s : Nat) (rest : List Attempt) (hs1 : 200 ≤ s) (hs2 : s < 300) :
    paginated_get ro pk m (⟨t, .response s none⟩ :: rest) =
      (.error (.jsonErr ⟨s, none⟩), rest) ∧
    get ro m (⟨t, .response s none⟩ :: rest) =
      (.error (.jsonErr ⟨s, none⟩), rest) := by
  have hes : isErrorStatus s = false := by
    simp only [isErrorStatus, Bool.and_eq_false_iff, decide_eq_false_iff_not, not_le, not_lt]
    omega
  constructor
  · simp [paginated_get, paginated_get_aux, get_resource_with_retry, hes]
  · simp [get, get_resource_with_retry, hes]

/-- C10, witness: a 200 response with a non-JSON body errors under both
operations. -/
theorem C10_json_always_parsed_witness :
    paginated_get DEFAULT_RETRY_STATUS_CODES .noneKey DEFAULT_TIMEOUT_SECONDS
      [⟨0, .response 200 none⟩] = (.error (.jsonErr ⟨200, none⟩), []) ∧
    get DEFAULT_RETRY_STATUS_CODES DEFAULT_TIMEOUT_SECONDS
      [⟨0, .response 200 none⟩] = (.error (.jsonErr ⟨200, none⟩), []) :=
  ⟨(C10_json_always_parsed DEFAULT_RETRY_STATUS_CODES .noneKey
      DEFAULT_TIMEOUT_SECONDS 0 200 [] (by decide) (by decide)).1,
   (C10_json_always_parsed DEFAULT_RETRY_STATUS_CODES .noneKey
      DEFAULT_TIMEOUT_SECONDS 0 200 [] (by decide) (by decide)).2⟩

end EdxApi
